import Mathlib

/-!
Verification of the SmartContext subscription/notification core.

Shallow embedding of the three hooks of the repository:

* `useSmartContext` (the Publisher, src/unnamed/part_001): keeps the latest
  state snapshot in `storeRef`, the previously observed snapshot in
  `prevStateRef`, an ordered list of listener callbacks in `subscribersRef`,
  and builds the published value `\x7b...setters, subscribe, getState\x7d` once
  (useMemo with empty dependency list).
* `useContextSelector` (the Subscriber, src/src/hooks/useContextSelector.ts):
  recomputes and stores the projected value on every render
  (`selectedStateRef.current = selector(store.getState())`) and registers a
  change handler `checkForUpdates` that recomputes the projection and calls
  `forceRender` when the fresh value is referentially different.
* `useContextSetters` (the Setter Accessor): validates the store, then
  returns, memoized on the store reference, the store object with the
  `getState` and `subscribe` properties removed.

Listener callbacks and JavaScript function references are modelled by natural
number identifiers; reference equality (`===`) on the modelled values is Lean
equality, with object identity carried explicitly as an allocation id where it
matters. Machine-level details (the React scheduler, the DOM) are outside the
embedded core, exactly as in the specification.
-/

namespace SmartContext

/-- Model of a JavaScript value as far as truthiness and reference identity
are concerned: `undef`/`null` are falsy, booleans are their own truth value,
a number is falsy exactly when it is zero, a string is falsy exactly when it
is empty, and an object reference (carrying its allocation id) is always
truthy. -/
inductive JSVal where
  | undef
  | null
  | bool (b : Bool)
  | num (n : Int)
  | str (s : String)
  | obj (id : Nat)
deriving DecidableEq

/-- JavaScript truthiness of a modelled value (the `!x` test in the hooks is
the negation of this). -/
def truthy : JSVal → Bool
  | .undef => false
  | .null => false
  | .bool b => b
  | .num n => decide (n ≠ 0)
  | .str s => decide (s ≠ "")
  | .obj _ => true

/-- State of one Publisher instance (`useSmartContext`).
`prevState` embeds `prevStateRef.current`: the initial value is a fresh empty
object `\x7b\x7d` that is reference-unequal to every externally supplied snapshot,
modelled as `none`; after the first notifying commit it holds the last
snapshot for which the subscribers were notified. `store` embeds
`storeRef.current`, the value returned by `getState`. `subscribers` embeds
`subscribersRef.current`, the ordered list of registered callback references.
`valueId` is the allocation identity of the published value object built by
the `useMemo` with an empty dependency list. -/
structure PubState (σ : Type) where
  prevState : Option σ
  store : σ
  subscribers : List Nat
  valueId : Nat
deriving DecidableEq

/-- Embedding of `getState: () => storeRef.current` (part_001 line 70). -/
def getStateOf {σ : Type} (ps : PubState σ) : σ :=
  ps.store

/-- Embedding of the body of `subscribe`: `subscribersRef.current.push(cb)`
(part_001 line 63) appends the callback reference at the end of the
registry. -/
def subscribeFn (cb : Nat) (reg : List Nat) : List Nat :=
  reg ++ [cb]

/-- Embedding of the unsubscribe closure returned by `subscribe`:
`subscribersRef.current = subscribersRef.current.filter((sub) => sub !== cb)`
(part_001 lines 64-68). Note that it filters by the callback reference, so it
removes every registration of `cb`, not a single one. -/
def unsubFn (cb : Nat) (reg : List Nat) : List Nat :=
  reg.filter (fun sub => sub ≠ cb)

/-- Effect on the live registry of one listener invocation that synchronously
calls the unsubscribe handles for the callback references `cbs`, in order. -/
def applyUnsubs (cbs : List Nat) (reg : List Nat) : List Nat :=
  cbs.foldl (fun r c => unsubFn c r) reg

/-- Embedding of the notification pass
`subscribersRef.current.forEach((sub) => sub())` (part_001 line 53).
JavaScript `forEach` iterates the array object that `subscribersRef.current`
held when the pass started; an unsubscribe during the pass replaces
`subscribersRef.current` with a new filtered array and leaves the iterated
array untouched, so the first list argument is the frozen pass-start snapshot
and the second is the live registry. `beh cb` gives the callback references
whose unsubscribe handles listener `cb` calls synchronously when invoked
(empty for a passive listener). `cur` is `storeRef.current` during the pass;
each invocation is logged together with the value `getState()` returns at
that moment. Returns the invocation log and the final live registry. -/
def notifyAll {σ : Type} (beh : Nat → List Nat) (cur : σ) :
    List Nat → List Nat → List (Nat × σ) × List Nat
  | [], reg => ([], reg)
  | f :: rest, reg =>
      let reg1 := applyUnsubs (beh f) reg
      let res := notifyAll beh cur rest reg1
      ((f, cur) :: res.1, res.2)

/-- Embedding of one owner re-render of the Publisher followed by its commit
phase (part_001 lines 44-57): the render phase stores the incoming snapshot
(`storeRef.current = state`, line 45), then the layout effect compares the
snapshot against `prevStateRef.current` by reference (line 51); when they
differ it notifies every subscriber (line 53) and records the snapshot as
previous (line 55). Returns the new Publisher state and the invocation log of
the notification pass. -/
def renderCommit {σ : Type} [DecidableEq σ] (beh : Nat → List Nat)
    (ps : PubState σ) (s : σ) : PubState σ × List (Nat × σ) :=
  let ps1 : PubState σ := { ps with store := s }
  if ps1.prevState = some s then
    (ps1, [])
  else
    let res := notifyAll beh s ps1.subscribers ps1.subscribers
    ({ ps1 with prevState := some s, subscribers := res.2 }, res.1)

/-- Externally driven operations on a Publisher over its lifetime: an owner
re-render supplying a snapshot, a subscription, or an unsubscription. -/
inductive POp (σ : Type) where
  | render (s : σ)
  | sub (cb : Nat)
  | unsub (cb : Nat)

/-- One lifecycle step of the Publisher. -/
def step {σ : Type} [DecidableEq σ] (beh : Nat → List Nat)
    (ps : PubState σ) : POp σ → PubState σ
  | .render s => (renderCommit beh ps s).1
  | .sub cb => { ps with subscribers := subscribeFn cb ps.subscribers }
  | .unsub cb => { ps with subscribers := unsubFn cb ps.subscribers }

/-- Publisher state right after construction: `prevStateRef` holds the fresh
empty object (reference-unequal to everything external), `storeRef` holds the
initial snapshot, the registry is empty, and the published value has just
been allocated with identity `vid`. -/
def mkPub {σ : Type} (s0 : σ) (vid : Nat) : PubState σ :=
  ⟨none, s0, [], vid⟩

/-- Run a list of lifecycle operations from a given Publisher state. -/
def runOps {σ : Type} [DecidableEq σ] (beh : Nat → List Nat)
    (ps : PubState σ) (ops : List (POp σ)) : PubState σ :=
  ops.foldl (step beh) ps

/-- Snapshot most recently supplied to the Publisher by a render operation in
`ops`, starting from `s0`. -/
def lastSnapshot {σ : Type} (s0 : σ) (ops : List (POp σ)) : σ :=
  ops.foldl (fun acc op => match op with | .render s => s | _ => acc) s0

/-- State of one Subscriber instance (`useContextSelector`): `selected`
embeds `selectedStateRef.current`, the last stored projected value. -/
structure SubState (κ : Type) where
  selected : κ
deriving DecidableEq

/-- Embedding of the render path of `useContextSelector` (lines 42-43 and
59): on every evaluation of the consuming site the projection is recomputed
on the current snapshot, stored in `selectedStateRef.current`, and returned.
Returns the post-render Subscriber state and the value handed back to the
caller. -/
def renderSub {σ κ : Type} (p : σ → κ) (curState : σ) : SubState κ × κ :=
  let v := p curState
  (⟨v⟩, v)

/-- Embedding of the change handler `checkForUpdates` (useContextSelector.ts
lines 45-50): recompute the projection with the latest selector on
`store.getState()` and call `forceRender` exactly when the fresh value is
reference-unequal to `selectedStateRef.current`. The Boolean is whether
`forceRender` was called; the returned Subscriber state is the handler's
effect on `selectedStateRef` (the handler only reads it). -/
def checkForUpdates {σ κ : Type} [DecidableEq κ] (p : σ → κ)
    (st : SubState κ) (curState : σ) : Bool × SubState κ :=
  let newState := p curState
  (if newState ≠ st.selected then true else false, st)

/-- Possible synchronous errors of the hook entry guards: `typeError` models
the TypeError raised by calling an absent `store.getState`, `providerError`
the explicit `new Error(...)` thrown by the hook. -/
inductive HookError where
  | typeError
  | providerError
deriving DecidableEq

/-- Embedding of the guard of `useContextSelector` (lines 31-36):
`if (!store.getState()) throw new Error(...)`. The argument is `none` when
the value read from the context has no callable `getState` (the call itself
then raises a TypeError), and `some v` when `getState()` returns `v`; the
hook throws its provider error exactly when `v` is falsy. -/
def useContextSelectorGuard : Option JSVal → Except HookError Unit
  | none => .error .typeError
  | some v => if truthy v then .ok () else .error .providerError

/-- Embedding of the guard of `useContextSetters` (lines 92-97), identical in
the source to the guard of `useContextSelector`. -/
def useContextSettersGuard : Option JSVal → Except HookError Unit
  | none => .error .typeError
  | some v => if truthy v then .ok () else .error .providerError

/-- Model of a JavaScript object as its ordered own enumerable properties,
each a name paired with the reference id of the stored function. -/
abbrev Obj : Type :=
  List (String × Nat)

/-- JavaScript property assignment: overwrite the value in place when the key
is already present, otherwise append the property at the end. -/
def oset (o : Obj) (k : String) (v : Nat) : Obj :=
  if o.any (fun kv => kv.1 = k) then
    o.map (fun kv => if kv.1 = k then (k, v) else kv)
  else
    o ++ [(k, v)]

/-- Embedding of the published value construction (part_001 lines 59-74):
`\x7b ...setters, subscribe: ..., getState: ... \x7d` spreads the setter
properties and then assigns the two control properties, `sid` and `gid`
being the reference ids of the `subscribe` and `getState` closures. -/
def publishedValueObj (setters : Obj) (sid gid : Nat) : Obj :=
  oset (oset setters "subscribe" sid) "getState" gid

/-- Embedding of the rest-destructuring in `useContextSetters` (line 100):
`const \x7b getState, subscribe, ...rest \x7d = store` collects every own
enumerable property of the store except `getState` and `subscribe`. -/
def restOf (store : Obj) : Obj :=
  store.filter (fun kv => decide (kv.1 ≠ "getState") && decide (kv.1 ≠ "subscribe"))

/-- Embedding of `useMemo(factory, [store])` (useContextSetters lines
99-102): the memo cell holds the dependency key (the reference id of the
store seen last time) and the reference id of the cached result object; a
call with the same key returns the cached object, any other call runs the
factory, which allocates a fresh object `freshId`. Returns the reference id
of the returned object and the updated memo cell. -/
def useMemoStep (freshId : Nat) (memo : Option (Nat × Nat)) (depKey : Nat) :
    Nat × Option (Nat × Nat) :=
  match memo with
  | some (k, r) => if depKey = k then (r, memo) else (freshId, some (depKey, freshId))
  | none => (freshId, some (depKey, freshId))

/-! Helper lemmas about the notification pass and the Publisher lifecycle. -/

/-- Every callback in the frozen pass-start snapshot is invoked, in order,
and each invocation observes the current store value. -/
theorem notifyAll_log {σ : Type} (beh : Nat → List Nat) (cur : σ)
    (frozen reg : List Nat) :
    (notifyAll beh cur frozen reg).1 = frozen.map (fun f => (f, cur)) := by
  induction frozen generalizing reg with
  | nil => rfl
  | cons f rest ih => simp [notifyAll, ih]

/-- The live registry after a pass is the pass-start registry with every
unsubscribe performed during the pass applied, in invocation order. -/
theorem notifyAll_reg {σ : Type} (beh : Nat → List Nat) (cur : σ)
    (frozen reg : List Nat) :
    (notifyAll beh cur frozen reg).2 =
      frozen.foldl (fun r f => applyUnsubs (beh f) r) reg := by
  induction frozen generalizing reg with
  | nil => rfl
  | cons f rest ih => simp [notifyAll, ih]

/-- After a render-commit cycle the stored snapshot is the incoming one. -/
theorem renderCommit_store {σ : Type} [DecidableEq σ] (beh : Nat → List Nat)
    (ps : PubState σ) (s : σ) :
    ((renderCommit beh ps s).1).store = s := by
  by_cases h : ps.prevState = some s <;> simp [renderCommit, h]

/-- A render-commit cycle never changes the identity of the published
value. -/
theorem renderCommit_valueId {σ : Type} [DecidableEq σ] (beh : Nat → List Nat)
    (ps : PubState σ) (s : σ) :
    ((renderCommit beh ps s).1).valueId = ps.valueId := by
  by_cases h : ps.prevState = some s <;> simp [renderCommit, h]

/-- The invocation log of a render-commit cycle: empty when the snapshot
reference is unchanged, otherwise every registered callback paired with the
new snapshot, in registration order. -/
theorem renderCommit_log {σ : Type} [DecidableEq σ] (beh : Nat → List Nat)
    (ps : PubState σ) (s : σ) :
    (renderCommit beh ps s).2 =
      if ps.prevState = some s then [] else ps.subscribers.map (fun f => (f, s)) := by
  by_cases h : ps.prevState = some s <;> simp [renderCommit, h, notifyAll_log]

/-- A filter that keeps every element of a list returns the list itself. -/
theorem filter_eq_self_of_all {α : Type} (p : α → Bool) (l : List α)
    (h : ∀ a ∈ l, p a = true) : l.filter p = l := by
  induction l with
  | nil => rfl
  | cons a rest ih =>
      simp only [List.filter_cons, h a (by simp)]
      simp only [List.mem_cons] at h
      exact congrArg (a :: ·) (ih fun b hb => h b (Or.inr hb))

/-- Every lifecycle step keeps the identity of the published value. -/
theorem step_valueId {σ : Type} [DecidableEq σ] (beh : Nat → List Nat)
    (ps : PubState σ) (op : POp σ) :
    (step beh ps op).valueId = ps.valueId := by
  cases op with
  | render s => exact renderCommit_valueId beh ps s
  | sub cb => rfl
  | unsub cb => rfl

/-- Running any sequence of lifecycle operations keeps the identity of the
published value. -/
theorem runOps_valueId {σ : Type} [DecidableEq σ] (beh : Nat → List Nat)
    (ops : List (POp σ)) :
    ∀ ps : PubState σ, (runOps beh ps ops).valueId = ps.valueId := by
  induction ops with
  | nil => intro ps; rfl
  | cons op rest ih =>
      intro ps
      exact (ih (step beh ps op)).trans (step_valueId beh ps op)

/-- After any sequence of lifecycle operations the stored snapshot is the one
supplied by the most recent render operation. -/
theorem runOps_store {σ : Type} [DecidableEq σ] (beh : Nat → List Nat)
    (ops : List (POp σ)) :
    ∀ ps : PubState σ, (runOps beh ps ops).store = lastSnapshot ps.store ops := by
  induction ops with
  | nil => intro ps; rfl
  | cons op rest ih =>
      intro ps
      cases op with
      | render s =>
          have hstep : (step beh ps (POp.render s)).store = s :=
            renderCommit_store beh ps s
          have := ih (step beh ps (POp.render s))
          rw [hstep] at this
          exact this
      | sub cb => exact ih _
      | unsub cb => exact ih _

/-! Claim theorems. -/

/-- C1: for every Publisher and every Subscriber on it with projection
function `p`, after a Snapshot replacement from `sOld` to `sNew` the
Subscriber schedules a re-evaluation (its change handler calls
`forceRender`) if and only if `p sNew` is reference-unequal to `p sOld`;
when the two projections are referentially equal no re-evaluation is
scheduled even though the Snapshot reference changed. The Subscriber state
is the one left by its last render against `sOld`. -/
theorem subscriber_reevaluates_iff_projection_changed {σ κ : Type}
    [DecidableEq κ] (p : σ → κ) (sOld sNew : σ) :
    (checkForUpdates p (renderSub p sOld).1 sNew).1 = true ↔ p sNew ≠ p sOld := by
  by_cases h : p sNew = p sOld <;> simp [checkForUpdates, renderSub, h]

/-- C2: when the change-detection step observes a new Snapshot reference,
the new reference is stored and retrievable via `getState` before any
listener is invoked: after the cycle the store holds the new snapshot, and
every invocation in the notification log observed the new snapshot through
`getState`, never the old one. -/
theorem store_before_notify {σ : Type} [DecidableEq σ] (beh : Nat → List Nat)
    (ps : PubState σ) (s : σ) :
    ((renderCommit beh ps s).1).store = s ∧
    ∀ q ∈ (renderCommit beh ps s).2, q.2 = s := by
  refine ⟨renderCommit_store beh ps s, ?_⟩
  intro q hq
  rw [renderCommit_log] at hq
  by_cases h : ps.prevState = some s
  · rw [if_pos h] at hq
    exact absurd hq (List.not_mem_nil q)
  · rw [if_neg h] at hq
    obtain ⟨f, _, rfl⟩ := List.mem_map.mp hq
    rfl

/-- Witness for C2: a concrete Publisher with one registered listener,
updated from snapshot 0 to snapshot 1; the single logged invocation observed
snapshot 1. -/
theorem store_before_notify_witness :
    (5, 1) ∈ (renderCommit (fun _ => []) (⟨none, 0, [5], 7⟩ : PubState Nat) 1).2 ∧
    (5, 1).2 = 1 :=
  ⟨by decide,
   (store_before_notify (fun _ => []) (⟨none, 0, [5], 7⟩ : PubState Nat) 1).2
     (5, 1) (by decide)⟩

/-- C3: over any sequence of lifecycle operations starting from a freshly
constructed Publisher, the published value keeps the identity it was
allocated with at construction (it is created exactly once and never
recreated), while `getState` on that same object always returns the
snapshot most recently supplied by a render. -/
theorem published_value_stable_and_getState_latest {σ : Type} [DecidableEq σ]
    (beh : Nat → List Nat) (s0 : σ) (vid : Nat) (ops : List (POp σ)) :
    (runOps beh (mkPub s0 vid) ops).valueId = vid ∧
    getStateOf (runOps beh (mkPub s0 vid) ops) = lastSnapshot s0 ops :=
  ⟨runOps_valueId beh ops (mkPub s0 vid), runOps_store beh ops (mkPub s0 vid)⟩

/-- C4: during a render-commit cycle, when the incoming Snapshot reference
differs from the previously stored one, the invocation log lists every
currently registered listener exactly once, in registration order (the
invocations are synchronous and carry no arguments: the second component of
a log entry is the observation `getState` would yield, not an argument);
when the incoming reference is identical to the stored one the log is
empty. -/
theorem notify_all_listeners_in_order_iff_changed {σ : Type} [DecidableEq σ]
    (beh : Nat → List Nat) (ps : PubState σ) (s : σ) :
    ((renderCommit beh ps s).2).map Prod.fst =
      if ps.prevState = some s then [] else ps.subscribers := by
  rw [renderCommit_log]
  by_cases h : ps.prevState = some s
  · simp [h]
  · rw [if_neg h, if_neg h]
    induction ps.subscribers with
    | nil => rfl
    | cons a t ih => simpa using ih

/-- Counterexample to C7: with projection the identity on `Nat`, last stored
projected value 0 and new snapshot 1, the change handler calls
`forceRender` but leaves the last-stored projected value at 0; it does not
update it to the freshly computed value 1, contrary to the claim. -/
theorem handler_does_not_update_cache_cex :
    (checkForUpdates (fun n : Nat => n) (renderSub (fun n : Nat => n) 0).1 1).1 = true ∧
    ((checkForUpdates (fun n : Nat => n) (renderSub (fun n : Nat => n) 0).1 1).2).selected = 0 ∧
    ((checkForUpdates (fun n : Nat => n) (renderSub (fun n : Nat => n) 0).1 1).2).selected ≠ 1 := by
  refine ⟨by decide, by decide, by decide⟩

/-- C7 amended: when the change handler computes a projected value
referentially different from the last-stored one, it schedules a
re-evaluation of the consuming site but leaves the last-stored projected
value unchanged; the stored value is updated only by the subsequent render
of the consuming site, which recomputes and stores the projection. -/
theorem handler_schedules_without_updating_cache {σ κ : Type} [DecidableEq κ]
    (p : σ → κ) (st : SubState κ) (cur : σ) (h : p cur ≠ st.selected) :
    (checkForUpdates p st cur).1 = true ∧
    (checkForUpdates p st cur).2 = st ∧
    ((renderSub p cur).1).selected = p cur := by
  refine ⟨?_, rfl, rfl⟩
  simp [checkForUpdates, h]

/-- Witness for the amended C7 at the projection identity on `Nat`, stored
value 0, new snapshot 1. -/
theorem handler_schedules_without_updating_cache_witness :
    (checkForUpdates (fun n : Nat => n) (⟨0⟩ : SubState Nat) 1).1 = true ∧
    (checkForUpdates (fun n : Nat => n) (⟨0⟩ : SubState Nat) 1).2 = ⟨0⟩ ∧
    ((renderSub (fun n : Nat => n) 1).1).selected = 1 :=
  handler_schedules_without_updating_cache (fun n : Nat => n) ⟨0⟩ 1 (by decide)

/-- Projecting the first components back out of a log of pairs recovers the
original list of callback references. -/
theorem map_fst_pairs {σ : Type} (cur : σ) (l : List Nat) :
    (l.map (fun f => (f, cur))).map Prod.fst = l := by
  induction l with
  | nil => rfl
  | cons a t ih => simpa using ih

/-- Counterexample to C5: with an empty registry, subscribing callback 7
twice yields two registrations, a subsequent notification pass fires 7 once
per registration, but calling either returned unsubscribe handle (both close
over the same callback reference and filter by it) empties the registry:
the other registration does not remain and does not keep firing. -/
theorem duplicate_unsub_removes_both_cex :
    subscribeFn 7 (subscribeFn 7 []) = [7, 7] ∧
    ((notifyAll (fun _ => []) (0 : Nat) [7, 7] [7, 7]).1).map Prod.fst = [7, 7] ∧
    unsubFn 7 (subscribeFn 7 (subscribeFn 7 [])) = [] ∧
    7 ∉ unsubFn 7 (subscribeFn 7 (subscribeFn 7 [])) := by
  decide

/-- C5 amended: subscribing the same callback `f` twice creates two
registrations and a notification pass fires `f` once per registration;
however, each returned unsubscribe handle removes every registration of
`f` (both of them, and any earlier one), so after calling either handle no
registration of `f` remains. -/
theorem duplicate_subscribe_fires_twice_unsub_removes_all {σ : Type}
    (f : Nat) (reg : List Nat) (cur : σ) :
    ((notifyAll (fun _ => []) cur (subscribeFn f (subscribeFn f reg))
        (subscribeFn f (subscribeFn f reg))).1).map Prod.fst = reg ++ [f, f] ∧
    unsubFn f (subscribeFn f (subscribeFn f reg)) = unsubFn f reg ∧
    f ∉ unsubFn f (subscribeFn f (subscribeFn f reg)) := by
  refine ⟨?_, ?_, ?_⟩
  · rw [notifyAll_log, map_fst_pairs]
    simp [subscribeFn]
  · simp [subscribeFn, unsubFn, List.filter_append]
  · simp [subscribeFn, unsubFn, List.mem_filter]

/-- Counterexample to C6: listeners 1 and 2 are registered in that order and
listener 1 synchronously unsubscribes listener 2 when invoked. Listener 1's
action removes 2 from the live registry before 2 is reached, yet the pass
(which iterates the frozen pass-start array) still invokes listener 2; the
final registry correctly holds only listener 1. -/
theorem frozen_snapshot_invokes_removed_cex :
    applyUnsubs ((fun f => if f = 1 then [2] else []) 1) [1, 2] = [1] ∧
    ((notifyAll (fun f => if f = 1 then [2] else []) (0 : Nat)
        [1, 2] [1, 2]).1).map Prod.fst = [1, 2] ∧
    (notifyAll (fun f => if f = 1 then [2] else []) (0 : Nat)
        [1, 2] [1, 2]).2 = [1] := by
  decide

/-- C6 amended: a notification pass iterates the frozen snapshot of the
registry taken before the first invocation, so every listener registered at
pass start is invoked exactly once, in order — including a listener whose
unsubscribe handle was called earlier in the same pass — and the registry
after the pass is exactly the pass-start registry with all unsubscribes
performed during the pass applied in order (no corruption: removals take
full effect for subsequent passes, and no still-registered listener is
skipped). -/
theorem notification_pass_frozen_snapshot_sound {σ : Type}
    (beh : Nat → List Nat) (cur : σ) (frozen reg : List Nat) :
    ((notifyAll beh cur frozen reg).1).map Prod.fst = frozen ∧
    (notifyAll beh cur frozen reg).2 =
      frozen.foldl (fun r f => applyUnsubs (beh f) r) reg := by
  refine ⟨?_, notifyAll_reg beh cur frozen reg⟩
  rw [notifyAll_log]
  exact map_fst_pairs cur frozen

/-- C8: for both the Subscriber and the Setter Accessor, the entry guard
raises a synchronous error if and only if the value read from the ambient
propagation channel has an absent `getState` (the call raises a TypeError)
or its `getState()` returns a falsy value (the hook throws its provider
error); otherwise no error is raised. -/
theorem guard_errors_iff_absent_or_falsy (g : Option JSVal) :
    ((∃ e, useContextSelectorGuard g = .error e) ↔
      (g = none ∨ ∃ v, g = some v ∧ truthy v = false)) ∧
    ((∃ e, useContextSettersGuard g = .error e) ↔
      (g = none ∨ ∃ v, g = some v ∧ truthy v = false)) := by
  cases g with
  | none =>
      constructor <;> simp [useContextSelectorGuard, useContextSettersGuard]
  | some v =>
      by_cases h : truthy v <;>
        constructor <;>
          simp [useContextSelectorGuard, useContextSettersGuard, h]

/-- Property assignment on an object that does not already have the key
appends the property at the end. -/
theorem oset_append_of_not_mem (o : Obj) (k : String) (v : Nat)
    (h : ∀ kv ∈ o, kv.1 ≠ k) : oset o k v = o ++ [(k, v)] := by
  unfold oset
  rw [if_neg]
  simp only [List.any_eq_true, decide_eq_true_eq, not_exists, not_and]
  intro kv hkv
  exact h kv hkv

/-- C9: the Setter Accessor returns an object containing exactly the Mutator
Set entries by name and no `getState` or `subscribe` entry (the mutator
names, being distinct properties of the published value next to the two
control functions, are distinct from those two names); repeated calls with
the same store reference return the same cached object unchanged, and a
call with a different store reference re-runs the factory, allocating a
fresh object — the dependency key is the store reference, which by the
lifetime invariant of the published value never changes on Snapshot
updates. -/
theorem setters_object_exact_and_memoized (setters : Obj) (sid gid : Nat)
    (k kOther r fresh : Nat)
    (hg : ∀ kv ∈ setters, kv.1 ≠ "getState")
    (hs : ∀ kv ∈ setters, kv.1 ≠ "subscribe")
    (hk : kOther ≠ k) :
    restOf (publishedValueObj setters sid gid) = setters ∧
    (∀ kv ∈ restOf (publishedValueObj setters sid gid),
        kv.1 ≠ "getState" ∧ kv.1 ≠ "subscribe") ∧
    (useMemoStep fresh (some (k, r)) k).1 = r ∧
    (useMemoStep fresh (some (k, r)) k).2 = some (k, r) ∧
    (useMemoStep fresh (some (k, r)) kOther).1 = fresh := by
  have hpub : publishedValueObj setters sid gid =
      setters ++ [("subscribe", sid)] ++ [("getState", gid)] := by
    unfold publishedValueObj
    rw [oset_append_of_not_mem setters "subscribe" sid hs,
        oset_append_of_not_mem _ "getState" gid]
    intro kv hkv
    rcases List.mem_append.mp hkv with hkv' | hkv'
    · exact hg kv hkv'
    · simp at hkv'
      simp [hkv']
  refine ⟨?_, ?_, ?_, ?_, ?_⟩
  · rw [hpub]
    unfold restOf
    rw [List.filter_append, List.filter_append]
    rw [filter_eq_self_of_all _ setters]
    · simp
    · intro kv hkv
      simp [hg kv hkv, hs kv hkv]
  · intro kv hkv
    unfold restOf at hkv
    have := (List.mem_filter.mp hkv).2
    simp only [Bool.and_eq_true, decide_eq_true_eq] at this
    exact this
  · simp [useMemoStep]
  · simp [useMemoStep]
  · simp [useMemoStep, hk]

/-- Witness for C9: a single mutator `setCount`, control-function ids 1 and
2, a memo cell keyed on store id 0 caching object id 10, fresh object id 11
and a different store id 5. -/
theorem setters_object_exact_and_memoized_witness :
    restOf (publishedValueObj [("setCount", 3)] 1 2) = [("setCount", 3)] ∧
    (∀ kv ∈ restOf (publishedValueObj [("setCount", 3)] 1 2),
        kv.1 ≠ "getState" ∧ kv.1 ≠ "subscribe") ∧
    (useMemoStep 11 (some (0, 10)) 0).1 = 10 ∧
    (useMemoStep 11 (some (0, 10)) 0).2 = some (0, 10) ∧
    (useMemoStep 11 (some (0, 10)) 5).1 = 11 :=
  setters_object_exact_and_memoized [("setCount", 3)] 1 2 0 5 10 11
    (by decide) (by decide) (by decide)

/-- C10: when the current Snapshot of a correctly constructed Publisher is a
falsy value (null, 0, the empty string, ...), both hook guards raise the
usage-context provider error even though `getState` is present and the
Publisher is in scope, because the validation tests the truthiness of the
result of `getState()` rather than the presence of the accessor. -/
theorem falsy_snapshot_raises_provider_error (ps : PubState JSVal)
    (h : truthy (getStateOf ps) = false) :
    useContextSelectorGuard (some (getStateOf ps)) =
      Except.error HookError.providerError ∧
    useContextSettersGuard (some (getStateOf ps)) =
      Except.error HookError.providerError := by
  constructor <;> simp [useContextSelectorGuard, useContextSettersGuard, h]

/-- Witness for C10: a Publisher whose current Snapshot is the number 0. -/
theorem falsy_snapshot_raises_provider_error_witness :
    useContextSelectorGuard
        (some (getStateOf (⟨none, JSVal.num 0, [], 0⟩ : PubState JSVal))) =
      Except.error HookError.providerError ∧
    useContextSettersGuard
        (some (getStateOf (⟨none, JSVal.num 0, [], 0⟩ : PubState JSVal))) =
      Except.error HookError.providerError :=
  falsy_snapshot_raises_provider_error ⟨none, JSVal.num 0, [], 0⟩ (by decide)

end SmartContext
